import Mathlib

/-!
Shallow embedding of the "Relational Store Client" of the repository
(`src/utils/iristool.py`, class `IRIStool`) together with proofs about the
claims of its specification.  Python strings are modelled as Lean `String`
(with `List Char` helpers for the string primitives the source uses),
exceptions as `Except PyErr`, and the live IRIS connection as an explicit
`Conn` value threaded through every operation.  The database engine itself is
not part of the repository; its reaction to the statements the client builds
is modelled from the spec (see `irisEngine`).
-/

namespace IRIStool

/-- Python exception kinds raised by the embedded code. -/
inductive PyErr where
  | valueError (msg : String)
  | typeError (msg : String)
  | keyError (msg : String)
  | databaseError (msg : String)
  | runtimeError (msg : String)
  deriving DecidableEq, Repr

instance {ε α : Type} [DecidableEq ε] [DecidableEq α] : DecidableEq (Except ε α) :=
  fun x y =>
    match x, y with
    | .ok a, .ok b => decidable_of_iff (a = b) (by simp)
    | .error a, .error b => decidable_of_iff (a = b) (by simp)
    | .ok _, .error _ => isFalse (by simp)
    | .error _, .ok _ => isFalse (by simp)

/-- `true` when the result is a raised `ValueError` (the domain-error kind the
source uses for its own checks, e.g. already-exists checks). -/
def isValueError {α : Type} : Except PyErr α → Bool
  | .error (.valueError _) => true
  | _ => false

/-- Character membership in a list, mirroring Python's `c in s` for the
single-character needles the source tests (`"."`, `"_"`). -/
def charIn (c : Char) : List Char → Bool
  | [] => false
  | a :: as => (c == a) || charIn c as

/-- Python's `x in s` membership test for the single-character needles used by
the source. -/
def pyInChar (c : Char) (s : String) : Bool := charIn c s.toList

/-- Python's `s.split(sep)` for a single-character separator, on `List Char`. -/
def splitOnChar (c : Char) : List Char → List (List Char)
  | [] => [[]]
  | a :: as =>
    let groups := splitOnChar c as
    if a == c then [] :: groups
    else
      match groups with
      | [] => [[a]]
      | g :: gs => (a :: g) :: gs

/-- Python's `s.split(".")`. -/
def pySplitDot (s : String) : List String := (splitOnChar '.' s.toList).map String.mk

/-- Python's `s.strip()` (leading and trailing whitespace removed). -/
def pyStrip (s : String) : String :=
  String.mk (((s.toList.dropWhile Char.isWhitespace).reverse.dropWhile Char.isWhitespace).reverse)

/-- Python's `s.replace(old, new)` for the single-character arguments the
source uses (`" "`→`"_"`, `"."`→`"_"`). -/
def pyReplace (old new : Char) (s : String) : String :=
  String.mk (s.toList.map (fun c => if c == old then new else c))

/-- `IRIStool.validate_table_name` (src/utils/iristool.py lines 107-135).
`table_schema = none` models Python's `table_schema=None` (the parameter's own
declared default); evaluating `"." in None` then raises a `TypeError`. -/
def validate_table_name (table_name : String) (table_schema : Option String) :
    Except PyErr String :=
  if pyInChar '.' table_name || pyInChar '_' table_name then
    .error (.valueError ("Invalid table_name " ++ table_name ++
      ". Do not include schema or underscores in table_name."))
  else
    match table_schema with
    | none =>
        -- Python: `"." in table_schema` with `table_schema = None`
        .error (.typeError "argument of type NoneType is not iterable")
    | some schema =>
        if pyInChar '.' schema then
          .error (.valueError ("Invalid table_schema " ++ schema ++
            ". Do not include periods in table_schema."))
        else if schema ≠ "" then .ok (schema ++ "." ++ table_name)
        else .ok table_name

/-- `IRIStool.get_name_and_schema` (src/utils/iristool.py lines 137-171). -/
def get_name_and_schema (full_name : String) : Except PyErr (String × String) :=
  let table_name := (pySplitDot full_name).getLastD ""
  let schema_name :=
    if pyInChar '.' full_name = false then "SQLUser"
    else (pySplitDot full_name).headD ""
  if pyInChar '.' table_name || pyInChar '_' table_name then
    .error (.valueError ("Invalid table_name " ++ full_name ++
      ". Do not include schema or underscores in table_name."))
  else if pyInChar '.' schema_name then
    .error (.valueError ("Invalid table_schema " ++ schema_name ++
      ". Do not include periods in table_schema."))
  else .ok (table_name, schema_name)

/-- A pandas `datetime64` value, abstracted to its date part and its
time-of-day part; `time = 0` models midnight (`pd.to_datetime("00:00:00").time()`)
and `date = 0` models the epoch date (`pd.to_datetime("1970-01-01").date()`). -/
structure DtStamp where
  date : Int
  time : Int
  deriving DecidableEq, Repr

/-- A Python value held by an object-dtype pandas column. -/
inductive PyObj where
  | pynone
  | pydate (d : Int)
  | pydatetime (d t : Int)
  | pytime (t : Int)
  | pystr (s : String)
  | pyint (i : Int)
  deriving DecidableEq, Repr

/-- `isinstance(v, dt.date) and not isinstance(v, dt.datetime)` — in Python a
`datetime` is also a `date`, so the source excludes it explicitly. -/
def PyObj.isPlainDate : PyObj → Bool
  | .pydate _ => true
  | _ => false

/-- `isinstance(v, dt.time)`. -/
def PyObj.isTimeVal : PyObj → Bool
  | .pytime _ => true
  | _ => false

def PyObj.isStr : PyObj → Bool
  | .pystr _ => true
  | _ => false

def PyObj.isNoneVal : PyObj → Bool
  | .pynone => true
  | _ => false

/-- `len(str(v))`: the length of the rendered form of a value, used by
`series.dropna().astype(str).map(len)`.  Dates render as `YYYY-MM-DD` (10
characters), times as `HH:MM:SS` (8), datetimes as 19. -/
def PyObj.strLen : PyObj → Nat
  | .pynone => 4
  | .pydate _ => 10
  | .pydatetime _ _ => 19
  | .pytime _ => 8
  | .pystr s => s.length
  | .pyint i => (toString i).length

/-- A pandas column (`df[col]`) together with its dtype. -/
inductive Series where
  | ints (vs : List Int)
  | floats (n : Nat)
  | datetimes (vs : List DtStamp)
  | objs (vs : List PyObj)
  | bools (vs : List Bool)
  deriving DecidableEq, Repr

/-- A pandas `DataFrame`: ordered named columns, all of one length. -/
structure DataFrame where
  cols : List (String × Series)
  deriving DecidableEq, Repr

/-- Python comparison `series.max() > bound`: on an empty series `max()` is
NaN and every comparison with NaN is false. -/
def seriesMaxGt (vs : List Int) (bound : Int) : Bool :=
  match vs.max? with
  | some m => decide (m > bound)
  | none => false

/-- Python comparison `series.min() < bound` (false on an empty series). -/
def seriesMinLt (vs : List Int) (bound : Int) : Bool :=
  match vs.min? with
  | some m => decide (m < bound)
  | none => false

/-- `series.dropna().astype(str).map(len).max() > bound` (false when the
series is empty, since `max()` of nothing is NaN). -/
def maxStrLenGt (vs : List PyObj) (bound : Nat) : Bool :=
  match (vs.map PyObj.strLen).max? with
  | some m => decide (m > bound)
  | none => false

/-- `pandas.api.types.is_string_dtype` on an object-dtype column (pandas 2.x
semantics: true iff every element, nulls included, is a Python string; an
empty object column also counts). -/
def isStringDtype (vs : List PyObj) : Bool := vs.all PyObj.isStr

/-- Column-name normalization applied throughout the source:
`col.strip()`, `col.replace(' ', '_')`, `col.replace('.', '_')`. -/
def normalizeCol (col : String) : String :=
  pyReplace '.' '_' (pyReplace ' ' '_' (pyStrip col))

/-- Python dict membership `k in d` for the string-keyed mapping. -/
def dictHasKey (d : List (String × String)) (k : String) : Bool :=
  d.any (fun p => p.1 == k)

/-- Python dict assignment `d[k] = v` (replaces an existing binding in place,
otherwise appends, preserving insertion order). -/
def dictSet (d : List (String × String)) (k : String) (v : String) :
    List (String × String) :=
  if dictHasKey d k then d.map (fun p => if p.1 == k then (k, v) else p)
  else d ++ [(k, v)]

/-- The per-column branch chain of `IRIStool.infer_iris_types`
(src/utils/iristool.py lines 764-808): `none` means the column fell through
every branch without an assignment (a mixed object column). -/
def classifySeries (series : Series) : Option String :=
  match series with
  | .ints vs =>
      if seriesMaxGt vs 2147483647 || seriesMinLt vs (-2147483648) then some "BIGINT"
      else some "INT"
  | .floats _ => some "DOUBLE"
  | .datetimes vs =>
      if vs.all (fun v => v.time == 0) then some "DATE"
      else if vs.all (fun v => v.date == 0) then some "TIME"
      else some "DATETIME"
  | .objs vs =>
      let nonnull := vs.filter (fun v => !v.isNoneVal)   -- series.dropna()
      if nonnull.all PyObj.isPlainDate then some "DATE"
      else if nonnull.all PyObj.isTimeVal then some "TIME"
      else if isStringDtype vs then
        if maxStrLenGt nonnull 255 then some "CLOB"
        else some ("VARCHAR(" ++ toString 255 ++ ")")
      else none
  | .bools _ => some "BIT"

/-- First loop of `infer_iris_types`: classify each column by dtype and store
the result under the normalized column name. -/
def inferPass1 (cts : List (String × String)) :
    List (String × Series) → List (String × String)
  | [] => cts
  | (col, series) :: rest =>
      let ncol := normalizeCol col
      let cts' :=
        match classifySeries series with
        | some t => dictSet cts ncol t
        | none => cts
      inferPass1 cts' rest

/-- Second loop of `infer_iris_types`: `if col not in column_types` — note the
membership test uses the raw (un-normalized) column name while the assignment
uses the normalized one, exactly as in the source. -/
def inferPass2 (cts : List (String × String)) : List String → List (String × String)
  | [] => cts
  | col :: rest =>
      if dictHasKey cts col then inferPass2 cts rest
      else inferPass2 (dictSet cts (normalizeCol col) ("VARCHAR(" ++ toString 255 ++ ")")) rest

/-- `IRIStool.infer_iris_types` (src/utils/iristool.py lines 757-818),
static method: `column_types = none` models the `column_types=None` default. -/
def infer_iris_types (df : DataFrame) (column_types : Option (List (String × String))) :
    List (String × String) :=
  let cts := column_types.getD []
  let cts1 := inferPass1 cts df.cols
  inferPass2 cts1 (df.cols.map (fun p => p.1))

/-- A parameter or cell value bound into a statement.  Floating-point payloads
are abstracted (`vfloat`), as no claim depends on float arithmetic. -/
inductive Val where
  | vint (i : Int)
  | vstr (s : String)
  | vbool (b : Bool)
  | vfloat
  | vdate (d : Int)
  | vtime (t : Int)
  | vdt (d t : Int)
  | vnull
  deriving DecidableEq, Repr

/-- The SQL statements the client builds, in structured form; `renderSql`
gives the text the source's f-strings produce.  The three `...Q` constructors
are the fixed catalog queries of `table_exists`, `index_exists` and
`views_using_table` with their bound parameters. -/
inductive SqlStmt where
  | createTable (fullName : String) (colDefs : List String)
  | dropObj (kind : String) (ifExists : Bool) (fullName : String)
  | insertRowS (fullName : String) (colStr : String) (vals : List Val)
  | insertManyS (fullName : String) (colStr : String) (rows : List (List Val))
  | updateRows (fullName : String) (setClause whereClause : String) (params : List Val)
  | createIdx (idxName fullName colName idxType : String)
  | hnswIdx (idxName fullName colName paramStr : String)
  | tableExistsQ (name schema : String)
  | indexExistsQ (name schema idxName : String)
  | viewsUsingQ (name schema : String)
  deriving DecidableEq, Repr

/-- The SQL text each statement renders to, following the source's f-strings
(catalog query text abbreviated to its distinguishing clause). -/
def renderSql : SqlStmt → String
  | .createTable full colDefs =>
      "CREATE TABLE " ++ full ++ " ( " ++ String.intercalate ", " colDefs ++ " )"
  | .dropObj kind ifExists full =>
      "DROP " ++ kind ++ " " ++ (if ifExists then "IF EXISTS " else "") ++ full
  | .insertRowS full colStr vals =>
      "INSERT INTO " ++ full ++ " (" ++ colStr ++ ") VALUES (" ++
        String.intercalate ", " (vals.map (fun _ => "?")) ++ ")"
  | .insertManyS full colStr rows =>
      "INSERT INTO " ++ full ++ " (" ++ colStr ++ ") VALUES (" ++
        String.intercalate ", " ((rows.headD []).map (fun _ => "?")) ++ ")"
  | .updateRows full setClause whereClause _ =>
      "UPDATE " ++ full ++ " SET " ++ setClause ++ " WHERE " ++ whereClause
  | .createIdx idxName full colName idxType =>
      if idxType ≠ "" && idxType ≠ "index" then
        "CREATE " ++ idxType ++ " INDEX " ++ idxName ++ " ON " ++ full ++ "(" ++ colName ++ ")"
      else
        "CREATE INDEX " ++ idxName ++ " ON " ++ full ++ "(" ++ colName ++ ")"
  | .hnswIdx idxName full colName paramStr =>
      "CREATE INDEX " ++ idxName ++ " ON " ++ full ++ "(" ++ colName ++
        ") AS %SQL.Index.HNSW(" ++ paramStr ++ ")"
  | .tableExistsQ _ _ =>
      "SELECT COUNT(*) as num_rows FROM INFORMATION_SCHEMA.TABLES WHERE table_name = ? AND table_schema = ?"
  | .indexExistsQ _ _ _ =>
      "SELECT COUNT(*) FROM INFORMATION_SCHEMA.INDEXES WHERE table_name = ? AND table_schema = ? AND index_name = ?"
  | .viewsUsingQ _ _ =>
      "SELECT TABLE_SCHEMA, TABLE_NAME, VIEW_SCHEMA, VIEW_NAME FROM INFORMATION_SCHEMA.VIEW_TABLE_USAGE WHERE TABLE_NAME = ? AND TABLE_SCHEMA = ?"

/-- What a cursor observes after executing one statement: a result set (with
its description) for queries, or an affected-row count for DML. -/
inductive ExecOut where
  | rows (description : List String) (rs : List (List Val))
  | count (n : Nat)
  deriving DecidableEq, Repr

/-- `cursor.rowcount` after execution. -/
def execRowcount : ExecOut → Nat
  | .count n => n
  | .rows _ _ => 0

/-- `cursor.fetchall()`. -/
def execRows : ExecOut → List (List Val)
  | .rows _ rs => rs
  | .count _ => []

/-- `cursor.description` column headers. -/
def execDescription : ExecOut → List String
  | .rows d _ => d
  | .count _ => []

/-- The visible catalog state of the database: existing tables and views (by
fully qualified name) and index names. -/
structure DbState where
  tables : List String
  views : List String
  indexes : List String
  deriving DecidableEq, Repr

/-- A database engine: how the external IRIS server responds to one statement
executed against one state. -/
abbrev Engine := SqlStmt → DbState → Except PyErr ExecOut × DbState

/-- Observable actions performed on the connection. -/
inductive Event where
  | executed (s : SqlStmt)
  | committed
  | rolledBack
  deriving DecidableEq, Repr

/-- A live connection: the server state it talks to, plus the trace of
actions performed so far. -/
structure Conn where
  st : DbState
  events : List Event
  deriving DecidableEq, Repr

/-- Modelled from the spec: the external IRIS engine's reaction to the
statements the client builds (the engine is an external collaborator, not
code of this repository).  `CREATE TABLE` fails when a table of that
qualified name already exists; `DROP` honours the `IF EXISTS` guard and fails
without it when the object is absent; DML against a missing table fails; a
successful batch insert reports the number of submitted rows; the catalog
queries answer from the state.  View dependencies are not tracked in this
state model, so `viewsUsingQ` reports none. -/
def irisEngine : Engine := fun stmt st =>
  match stmt with
  | .createTable full _ =>
      if full ∈ st.tables then
        (.error (.databaseError ("Table or view name not unique: " ++ full)), st)
      else (.ok (.count 0), { st with tables := st.tables ++ [full] })
  | .dropObj kind ifExists full =>
      if kind == "view" then
        if full ∈ st.views then (.ok (.count 0), { st with views := st.views.erase full })
        else if ifExists then (.ok (.count 0), st)
        else (.error (.databaseError ("View not found: " ++ full)), st)
      else
        if full ∈ st.tables then (.ok (.count 0), { st with tables := st.tables.erase full })
        else if ifExists then (.ok (.count 0), st)
        else (.error (.databaseError ("Table not found: " ++ full)), st)
  | .insertRowS full _ _ =>
      if full ∈ st.tables then (.ok (.count 1), st)
      else (.error (.databaseError ("Table not found: " ++ full)), st)
  | .insertManyS full _ rows =>
      if full ∈ st.tables then (.ok (.count rows.length), st)
      else (.error (.databaseError ("Table not found: " ++ full)), st)
  | .updateRows full _ _ _ =>
      if full ∈ st.tables then (.ok (.count 0), st)
      else (.error (.databaseError ("Table not found: " ++ full)), st)
  | .createIdx idxName full _ _ =>
      if full ∈ st.tables then (.ok (.count 0), { st with indexes := st.indexes ++ [idxName] })
      else (.error (.databaseError ("Table not found: " ++ full)), st)
  | .hnswIdx idxName full _ _ =>
      if full ∈ st.tables then (.ok (.count 0), { st with indexes := st.indexes ++ [idxName] })
      else (.error (.databaseError ("Table not found: " ++ full)), st)
  | .tableExistsQ name schema =>
      (.ok (.rows ["num_rows"]
        [[.vint (if (schema ++ "." ++ name) ∈ st.tables then 1 else 0)]]), st)
  | .indexExistsQ _ _ idxName =>
      (.ok (.rows ["Aggregate_1"] [[.vint (if idxName ∈ st.indexes then 1 else 0)]]), st)
  | .viewsUsingQ _ _ =>
      (.ok (.rows ["TABLE_SCHEMA", "TABLE_NAME", "VIEW_SCHEMA", "VIEW_NAME"] []), st)

/-- An engine that gives the same fixed answer to every statement — used to
model "whatever the server reported" for a single call. -/
def constEngine (r : Except PyErr ExecOut) : Engine := fun _ st => (r, st)

/-- An engine on which every mutating statement fails with `e` while the
catalog queries still answer normally — models a server-side failure during
execution of DDL/DML. -/
def failWriteEngine (e : PyErr) : Engine := fun stmt st =>
  match stmt with
  | .tableExistsQ _ _ => irisEngine stmt st
  | .indexExistsQ _ _ _ => irisEngine stmt st
  | .viewsUsingQ _ _ => irisEngine stmt st
  | _ => (.error e, st)

/-- The tabular value `fetch` returns: column names from the cursor
description, rows verbatim. -/
structure PandasDF where
  columns : List String
  rows : List (List Val)
  deriving DecidableEq, Repr

/-- `IRIStool.fetch` (src/utils/iristool.py lines 174-206).  The Python
signature is `-> pd.DataFrame | None`, modelled as `Option PandasDF`; the
`except` branch only prints and re-raises, with no transaction framing. -/
def fetch (E : Engine) (c : Conn) (stmt : SqlStmt) :
    Except PyErr (Option PandasDF) × Conn :=
  match E stmt c.st with
  | (.error e, st') =>
      (.error e, { st := st', events := c.events ++ [.executed stmt] })
  | (.ok out, st') =>
      if execRows out = [] then
        (.ok (some { columns := [], rows := [] }),
         { st := st', events := c.events ++ [.executed stmt] })
      else
        (.ok (some { columns := execDescription out, rows := execRows out }),
         { st := st', events := c.events ++ [.executed stmt] })

/-- `df[col][0]`: look up a column by name and take the first row's cell.
A missing column, or row 0 of an empty frame, raises (KeyError/IndexError). -/
def dfCell (odf : Option PandasDF) (col : String) : Except PyErr Val :=
  match odf with
  | none => .error (.typeError "NoneType is not subscriptable")
  | some df =>
      match df.columns.findIdx? (fun cname => cname == col) with
      | none => .error (.keyError col)
      | some i =>
          match df.rows.head? with
          | none => .error (.keyError "0")
          | some r =>
              match r.get? i with
              | none => .error (.keyError "0")
              | some v => .ok v

/-- Python `int(v)` on a fetched cell (float magnitudes are abstracted). -/
def pyInt : Val → Except PyErr Int
  | .vint i => .ok i
  | .vbool b => .ok (if b then 1 else 0)
  | .vfloat => .ok 0
  | .vstr s => .error (.valueError ("invalid literal for int: " ++ s))
  | _ => .error (.typeError "int() argument must be a number")

/-- `IRIStool.table_exists` (src/utils/iristool.py lines 440-467). -/
def table_exists (E : Engine) (c : Conn) (table_name table_schema : String) :
    Except PyErr Bool × Conn :=
  match validate_table_name table_name (some table_schema) with
  | .error e => (.error e, c)
  | .ok _ =>
      match fetch E c (SqlStmt.tableExistsQ table_name table_schema) with
      | (.error e, c') => (.error e, c')
      | (.ok odf, c') =>
          match dfCell odf "num_rows" with
          | .error e => (.error e, c')
          | .ok v =>
              match pyInt v with
              | .error e => (.error e, c')
              | .ok n => (.ok (decide (n > 0)), c')

/-- `IRIStool.insert_row` (src/utils/iristool.py lines 208-233): build the
INSERT, execute, commit on success; on failure roll back and re-raise. -/
def insert_row (E : Engine) (c : Conn) (table_name : String)
    (values : List (String × Val)) (table_schema : String) :
    Except PyErr Unit × Conn :=
  match validate_table_name table_name (some table_schema) with
  | .error e => (.error e, c)
  | .ok full_name =>
      let columns := String.intercalate ", " (values.map (fun p => p.1))
      let stmt := SqlStmt.insertRowS full_name columns (values.map (fun p => p.2))
      match E stmt c.st with
      | (.ok _, st') =>
          (.ok (), { st := st', events := c.events ++ [.executed stmt, .committed] })
      | (.error e, _) =>
          (.error e, { st := c.st, events := c.events ++ [.executed stmt, .rolledBack] })

/-- `row[col]` dict lookup used while building the batch parameter tuples. -/
def dictGetVal (row : List (String × Val)) (k : String) : Except PyErr Val :=
  match row.find? (fun p => p.1 == k) with
  | some p => .ok p.2
  | none => .error (.keyError k)

/-- `[tuple(row[col] for col in columns) for row in rows]`; a missing key in
any row raises a KeyError. -/
def buildRows (columns : List String) : List (List (String × Val)) →
    Except PyErr (List (List Val))
  | [] => .ok []
  | r :: rs => do
      let vs ← columns.mapM (dictGetVal r)
      let rest ← buildRows columns rs
      .ok (vs :: rest)

/-- `IRIStool.insert_many` (src/utils/iristool.py lines 235-273).  Note: the
source returns `cursor.rowcount` as reported by the driver, with no check
against `len(rows)`. -/
def insert_many (E : Engine) (c : Conn) (table_name : String)
    (rows : List (List (String × Val))) (table_schema : String) :
    Except PyErr Nat × Conn :=
  if rows = [] then (.ok 0, c)
  else
    match validate_table_name table_name (some table_schema) with
    | .error e => (.error e, c)
    | .ok full_table =>
        let columns := (rows.headD []).map (fun p => p.1)
        let col_str := pyReplace ' ' '_' (String.intercalate "," columns)
        match buildRows columns rows with
        | .error e =>
            -- KeyError inside the try block: rollback, print, re-raise
            (.error e, { st := c.st, events := c.events ++ [.rolledBack] })
        | .ok values =>
            let stmt := SqlStmt.insertManyS full_table col_str values
            match E stmt c.st with
            | (.ok out, st') =>
                (.ok (execRowcount out),
                 { st := st', events := c.events ++ [.executed stmt, .committed] })
            | (.error e, _) =>
                (.error e, { st := c.st, events := c.events ++ [.executed stmt, .rolledBack] })

/-- `IRIStool.create_table` (src/utils/iristool.py lines 276-315).  The
`constraints=None` default is modelled by the empty list (extending with `[]`
is a no-op, matching `if constraints:`). -/
def create_table (E : Engine) (c : Conn) (table_name : String)
    (columns : List (String × String)) (constraints : List String)
    (table_schema : String) (check_exists : Bool) :
    Except PyErr Unit × Conn :=
  match validate_table_name table_name (some table_schema) with
  | .error e => (.error e, c)
  | .ok full_table_name =>
      match (if check_exists then table_exists E c table_name table_schema
             else (.ok false, c)) with
      | (.error e, c') => (.error e, c')
      | (.ok tblExists, c') =>
          if tblExists then
            (.error (.valueError ("Table " ++ table_name ++ " already exists.")), c')
          else
            let col_defs := columns.map (fun p => p.1 ++ " " ++ p.2) ++ constraints
            let stmt := SqlStmt.createTable full_table_name col_defs
            match E stmt c'.st with
            | (.ok _, st') =>
                (.ok (), { st := st', events := c'.events ++ [.executed stmt, .committed] })
            | (.error e, _) =>
                (.error e, { st := c'.st, events := c'.events ++ [.executed stmt, .rolledBack] })

/-- Execute one DROP statement with commit/rollback, the tail of
`IRIStool.drop_table` (src/utils/iristool.py lines 342-351). -/
def execDropStmt (E : Engine) (c : Conn) (view_or_table : String)
    (if_exists : Bool) (full_name : String) : Except PyErr Unit × Conn :=
  let stmt := SqlStmt.dropObj view_or_table if_exists full_name
  match E stmt c.st with
  | (.ok _, st') =>
      (.ok (), { st := st', events := c.events ++ [.executed stmt, .committed] })
  | (.error e, _) =>
      (.error e, { st := c.st, events := c.events ++ [.executed stmt, .rolledBack] })

/-- `df.to_dict(orient="records") if not df.empty else []`. -/
def dfRecords (odf : Option PandasDF) : List (List (String × Val)) :=
  match odf with
  | none => []
  | some df => df.rows.map (fun r => df.columns.zip r)

/-- `IRIStool.views_using_table` (src/utils/iristool.py lines 1027-1040). -/
def views_using_table (E : Engine) (c : Conn) (table_name table_schema : String) :
    Except PyErr (List (List (String × Val))) × Conn :=
  match fetch E c (SqlStmt.viewsUsingQ table_name table_schema) with
  | (.error e, c') => (.error e, c')
  | (.ok odf, c') => (.ok (dfRecords odf), c')

/-- The inner recursive call of `drop_table` on a dependent view: it passes
`if_exists=False`, `view_or_table="view"` and leaves `drop_related_views` at
its default `False`, so it reduces to validate-then-drop. -/
def dropSingle (E : Engine) (c : Conn) (table_name table_schema : String)
    (if_exists : Bool) (view_or_table : String) : Except PyErr Unit × Conn :=
  match validate_table_name table_name (some table_schema) with
  | .error e => (.error e, c)
  | .ok full_name => execDropStmt E c view_or_table if_exists full_name

/-- A record field fetched as a string identifier
(`related_view['VIEW_NAME']`): missing key raises, a non-string value would
fail inside the subsequent validation. -/
def recField (rv : List (String × Val)) (k : String) : Except PyErr String :=
  match rv.find? (fun p => p.1 == k) with
  | none => .error (.keyError k)
  | some p =>
      match p.2 with
      | .vstr s => .ok s
      | _ => .error (.typeError "identifier is not a string")

/-- The `for related_view in self.views_using_table(...)` loop of
`drop_table`. -/
def dropRelatedLoop (E : Engine) (c : Conn) :
    List (List (String × Val)) → Except PyErr Unit × Conn
  | [] => (.ok (), c)
  | rv :: rest =>
      match recField rv "VIEW_NAME" with
      | .error e => (.error e, c)
      | .ok vname =>
          match recField rv "VIEW_SCHEMA" with
          | .error e => (.error e, c)
          | .ok vschema =>
              match dropSingle E c vname vschema false "view" with
              | (.ok _, c') => dropRelatedLoop E c' rest
              | (.error e, c') => (.error e, c')

/-- `IRIStool.drop_table` (src/utils/iristool.py lines 317-351). -/
def drop_table (E : Engine) (c : Conn) (table_name table_schema : String)
    (if_exists drop_related_views : Bool) (view_or_table : String) :
    Except PyErr Unit × Conn :=
  match validate_table_name table_name (some table_schema) with
  | .error e => (.error e, c)
  | .ok full_name =>
      match ((if drop_related_views then
               match views_using_table E c table_name table_schema with
               | (.error e, c') => (.error e, c')
               | (.ok recs, c') => dropRelatedLoop E c' recs
             else (.ok (), c)) : Except PyErr Unit × Conn) with
      | (.error e, c') => (.error e, c')
      | (.ok _, c') => execDropStmt E c' view_or_table if_exists full_name

/-- `IRIStool.update` (src/utils/iristool.py lines 353-393). -/
def update (E : Engine) (c : Conn) (table_name : String)
    (new_values filters : List (String × Val)) (table_schema : String) :
    Except PyErr Nat × Conn :=
  match validate_table_name table_name (some table_schema) with
  | .error e => (.error e, c)
  | .ok full_table =>
      let set_clause := String.intercalate ", " (new_values.map (fun p => p.1 ++ " = ?"))
      let where_clause :=
        String.intercalate " AND " (filters.map (fun p => pyReplace ' ' '_' p.1 ++ " = ?"))
      let stmt := SqlStmt.updateRows full_table set_clause where_clause
        (new_values.map (fun p => p.2) ++ filters.map (fun p => p.2))
      match E stmt c.st with
      | (.ok out, st') =>
          (.ok (execRowcount out),
           { st := st', events := c.events ++ [.executed stmt, .committed] })
      | (.error e, _) =>
          (.error e, { st := c.st, events := c.events ++ [.executed stmt, .rolledBack] })

/-- `IRIStool.index_exists` (src/utils/iristool.py lines 821-848): a raw
cursor query with no try block (`cursor.fetchone()[0] > 0`), so a failure
propagates without rollback. -/
def index_exists (E : Engine) (c : Conn) (table_name index_name table_schema : String) :
    Except PyErr Bool × Conn :=
  match validate_table_name table_name (some table_schema) with
  | .error e => (.error e, c)
  | .ok _ =>
      let stmt := SqlStmt.indexExistsQ table_name table_schema index_name
      match E stmt c.st with
      | (.error e, st') =>
          (.error e, { st := st', events := c.events ++ [.executed stmt] })
      | (.ok out, st') =>
          let c' : Conn := { st := st', events := c.events ++ [.executed stmt] }
          match (execRows out).head? with
          | none => (.error (.typeError "NoneType is not subscriptable"), c')
          | some r =>
              match r.head? with
              | none => (.error (.keyError "0"), c')
              | some v =>
                  match pyInt v with
                  | .error e => (.error e, c')
                  | .ok n => (.ok (decide (n > 0)), c')

/-- `IRIStool.create_index` (src/utils/iristool.py lines 850-882). -/
def create_index (E : Engine) (c : Conn) (index_name table_name column_name : String)
    (index_type : String) (table_schema : String) : Except PyErr Unit × Conn :=
  match validate_table_name table_name (some table_schema) with
  | .error e => (.error e, c)
  | .ok full_name =>
      match index_exists E c table_name index_name table_schema with
      | (.error e, c') => (.error e, c')
      | (.ok exists_flag, c') =>
          if exists_flag then
            (.error (.valueError ("Index " ++ index_name ++ " already exists on " ++
              full_name ++ ".")), c')
          else
            let stmt := SqlStmt.createIdx index_name full_name column_name index_type
            match E stmt c'.st with
            | (.ok _, st') =>
                (.ok (), { st := st', events := c'.events ++ [.executed stmt, .committed] })
            | (.error e, _) =>
                (.error e, { st := c'.st, events := c'.events ++ [.executed stmt, .rolledBack] })

/-- `IRIStool.create_hnsw_index` (src/utils/iristool.py lines 884-951).
`M`/`ef_construct` use Python truthiness (`if M:`), and — unlike every other
mutating operation — the `except` branch only prints: the execution error is
swallowed with no rollback and no re-raise. -/
def create_hnsw_index (E : Engine) (c : Conn) (table_name column_name index_name : String)
    (distance : String) (M ef_construct : Option Int) (table_schema : String) :
    Except PyErr Unit × Conn :=
  match validate_table_name table_name (some table_schema) with
  | .error e => (.error e, c)
  | .ok full_name =>
      let quote := String.mk [Char.ofNat 39]
      let params := ["Distance=" ++ quote ++ distance ++ quote]
      let params := params ++
        (match M with
         | some m => if m ≠ 0 then ["M=" ++ toString m] else []
         | none => [])
      let params := params ++
        (match ef_construct with
         | some ef => if ef ≠ 0 then ["efConstruct=" ++ toString ef] else []
         | none => [])
      let param_str := String.intercalate ", " params
      let stmt := SqlStmt.hnswIdx index_name full_name column_name param_str
      match E stmt c.st with
      | (.ok _, st') =>
          (.ok (), { st := st', events := c.events ++ [.executed stmt, .committed] })
      | (.error _, st') =>
          -- `except Exception as e: print(...)`: swallowed
          (.ok (), { st := st', events := c.events ++ [.executed stmt] })

/-- The cell values of one column, as bound into the bulk INSERT. -/
def seriesVals : Series → List Val
  | .ints vs => vs.map Val.vint
  | .floats n => List.replicate n Val.vfloat
  | .datetimes vs => vs.map (fun v => Val.vdt v.date v.time)
  | .objs vs => vs.map (fun v =>
      match v with
      | .pynone => Val.vnull
      | .pydate d => Val.vdate d
      | .pydatetime d t => Val.vdt d t
      | .pytime t => Val.vtime t
      | .pystr s => Val.vstr s
      | .pyint i => Val.vint i)
  | .bools vs => vs.map Val.vbool

/-- `df.values.tolist()`: the frame's rows. -/
def dfValues (df : DataFrame) : List (List Val) :=
  (df.cols.map (fun p => seriesVals p.2)).transpose

/-- `len(df)`: the number of rows. -/
def dfNRows (df : DataFrame) : Nat :=
  match df.cols with
  | [] => 0
  | (_, s) :: _ => (seriesVals s).length

/-- One entry of the `indices` argument of `df_to_table`: the dict keys
`column` (required), `type`, `name` and `params` — absent keys are `none`,
matching `idx.get(...)` defaults. -/
structure IdxParams where
  distance : Option String
  M : Option Int
  ef_construct : Option Int
  deriving DecidableEq, Repr

structure IdxSpec where
  column : String
  idxType : Option String
  name : Option String
  params : Option IdxParams
  deriving DecidableEq, Repr

/-- The `for idx in indices` loop of `df_to_table`
(src/utils/iristool.py lines 703-730). -/
def dfIndexLoop (E : Engine) (c : Conn) (table_name table_schema : String) :
    List IdxSpec → Except PyErr Unit × Conn
  | [] => (.ok (), c)
  | idx :: rest =>
      let col := normalizeCol idx.column
      let idx_type := idx.idxType.getD "index"
      let idx_name := idx.name.getD (table_name ++ "_" ++ col ++ "_" ++ idx_type)
      let step :=
        if idx_type = "hnsw" then
          let ps := idx.params.getD { distance := none, M := none, ef_construct := none }
          create_hnsw_index E c table_name col idx_name (ps.distance.getD "Cosine")
            ps.M ps.ef_construct table_schema
        else
          create_index E c idx_name table_name col idx_type table_schema
      match step with
      | (.ok _, c') => dfIndexLoop E c' table_name table_schema rest
      | (.error e, c') => (.error e, c')

/-- Render a caught error for the `RuntimeError` message `df_to_table`
re-raises with. -/
def pyErrMsg : PyErr → String
  | .valueError m => m
  | .typeError m => m
  | .keyError m => m
  | .databaseError m => m
  | .runtimeError m => m

/-- The part of `df_to_table` after the existence handling
(src/utils/iristool.py lines 683-754): resolve column types, build the
constraint list (primary key first), create the table, create the indexes,
then bulk-insert with the row-count verification; any insert-phase failure
rolls back and re-raises as a `RuntimeError`. -/
def dfToTableBody (E : Engine) (c : Conn) (df : DataFrame)
    (table_name table_schema full_name : String)
    (column_types : Option (List (String × String))) (primary_key : Option String)
    (constraints : List String) (indices : Option (List IdxSpec)) :
    Except PyErr Unit × Conn :=
  let column_types :=
    match column_types with
    | none => infer_iris_types df none
    | some m => m
  let all_constraints :=
    (match primary_key with
     | some pk => ["PRIMARY KEY (" ++ pk ++ ")"]
     | none => []) ++ constraints
  match create_table E c table_name column_types all_constraints table_schema false with
  | (.error e, c') => (.error e, c')
  | (.ok _, c') =>
      match ((match indices with
              | some l => dfIndexLoop E c' table_name table_schema l
              | none => (.ok (), c')) : Except PyErr Unit × Conn) with
      | (.error e, c2) => (.error e, c2)
      | (.ok _, c2) =>
          let columns := df.cols.map (fun p =>
            pyReplace '.' '_' (pyReplace ' ' '_' (pyStrip p.1)))
          let stmt := SqlStmt.insertManyS full_name
            (String.intercalate ", " columns) (dfValues df)
          match E stmt c2.st with
          | (.error e, _) =>
              (.error (.runtimeError ("Converting DataFrame to table failed: " ++ pyErrMsg e)),
               { st := c2.st, events := c2.events ++ [.executed stmt, .rolledBack] })
          | (.ok out, st') =>
              if execRowcount out ≠ dfNRows df then
                -- `if cursor.rowcount != len(df): raise Exception(error_string)`
                (.error (.runtimeError "Converting DataFrame to table failed: row count mismatch"),
                 { st := c2.st, events := c2.events ++ [.executed stmt, .rolledBack] })
              else
                (.ok (), { st := st', events := c2.events ++ [.executed stmt, .committed] })

/-- `IRIStool.df_to_table` (src/utils/iristool.py lines 626-754), the Bulk
Load Orchestrator entry point.  Note that when `exist_ok` is false no
existence check runs at all, and `create_table` is invoked with its
`check_exists` default `False`. -/
def df_to_table (E : Engine) (c : Conn) (df : DataFrame)
    (table_name table_schema : String)
    (column_types : Option (List (String × String))) (primary_key : Option String)
    (constraints : List String) (exist_ok drop_if_exists drop_related_views : Bool)
    (indices : Option (List IdxSpec)) : Except PyErr Unit × Conn :=
  match validate_table_name table_name (some table_schema) with
  | .error e => (.error e, c)
  | .ok full_name =>
      if exist_ok then
        match table_exists E c table_name table_schema with
        | (.error e, c') => (.error e, c')
        | (.ok true, c') =>
            if drop_if_exists then
              match drop_table E c' table_name table_schema true drop_related_views "table" with
              | (.error e, c2) => (.error e, c2)
              | (.ok _, c2) =>
                  dfToTableBody E c2 df table_name table_schema full_name
                    column_types primary_key constraints indices
            else
              -- "Skipping table creation." — early return without error
              (.ok (), c')
        | (.ok false, c') =>
            dfToTableBody E c' df table_name table_schema full_name
              column_types primary_key constraints indices
      else
        dfToTableBody E c df table_name table_schema full_name
          column_types primary_key constraints indices

/-- Is this event the execution of the CREATE TABLE statement? -/
def isCreateTableExec : Event → Bool
  | .executed (.createTable _ _) => true
  | _ => false

/-- Is this event the execution of an index-creation statement (ordinary or
vector/HNSW)? -/
def isIndexExec : Event → Bool
  | .executed (.createIdx _ _ _ _) => true
  | .executed (.hnswIdx _ _ _ _) => true
  | _ => false

/-- Is this event the execution of the multi-row bulk INSERT? -/
def isBulkInsertExec : Event → Bool
  | .executed (.insertManyS _ _ _) => true
  | _ => false

/-- An event that is none of table creation, index creation or bulk insert
(catalog queries, drops, commits, rollbacks). -/
def preEvent (ev : Event) : Bool :=
  !(isCreateTableExec ev || isIndexExec ev || isBulkInsertExec ev)

/-- An event allowed between table creation and bulk insert (anything except
those two executions; index executions are counted separately). -/
def midEvent (ev : Event) : Bool :=
  !(isCreateTableExec ev || isBulkInsertExec ev)

/-! ### Helper lemmas -/

theorem charIn_append (c : Char) (l₁ l₂ : List Char) :
    charIn c (l₁ ++ l₂) = (charIn c l₁ || charIn c l₂) := by
  induction l₁ with
  | nil => simp [charIn]
  | cons a as ih => simp [charIn, ih, Bool.or_assoc]

theorem splitOnChar_of_not_mem {c : Char} {l : List Char} (h : charIn c l = false) :
    splitOnChar c l = [l] := by
  induction l with
  | nil => rfl
  | cons a as ih =>
      simp only [charIn, Bool.or_eq_false_iff] at h
      have hne : (a == c) = false := by
        simp only [beq_eq_false_iff_ne] at h ⊢
        exact fun hh => h.1 hh.symm
      simp [splitOnChar, hne, ih h.2]

theorem splitOnChar_append_cons {c : Char} {l₁ : List Char} (l₂ : List Char)
    (h : charIn c l₁ = false) :
    splitOnChar c (l₁ ++ c :: l₂) = l₁ :: splitOnChar c l₂ := by
  induction l₁ with
  | nil => simp [splitOnChar]
  | cons a as ih =>
      simp only [charIn, Bool.or_eq_false_iff] at h
      have hne : (a == c) = false := by
        simp only [beq_eq_false_iff_ne] at h ⊢
        exact fun hh => h.1 hh.symm
      simp [splitOnChar, hne, ih h.2, List.append_eq]

theorem toList_append (a b : String) : (a ++ b).toList = a.toList ++ b.toList :=
  String.data_append a b

theorem pyInChar_append (c : Char) (a b : String) :
    pyInChar c (a ++ b) = (pyInChar c a || pyInChar c b) := by
  unfold pyInChar
  rw [toList_append, charIn_append]

theorem pySplitDot_qualified {schema name : String}
    (hs : pyInChar '.' schema = false) (hn : pyInChar '.' name = false) :
    pySplitDot (schema ++ "." ++ name) = [schema, name] := by
  unfold pyInChar at hs hn
  have h1 : (schema ++ "." ++ name).toList = schema.toList ++ '.' :: name.toList := by
    rw [toList_append, toList_append, List.append_assoc]
    rfl
  unfold pySplitDot
  rw [h1, splitOnChar_append_cons _ hs, splitOnChar_of_not_mem hn]
  rfl

theorem validate_ok {name schema : String} (h1 : pyInChar '.' name = false)
    (h2 : pyInChar '_' name = false) (h3 : pyInChar '.' schema = false)
    (h4 : schema ≠ "") :
    validate_table_name name (some schema) = .ok (schema ++ "." ++ name) := by
  unfold validate_table_name
  simp [h1, h2, h3, h4]

theorem qualified_has_dot (schema name : String) :
    pyInChar '.' (schema ++ "." ++ name) = true := by
  rw [pyInChar_append, pyInChar_append]
  have : pyInChar '.' "." = true := by decide
  simp [this]

/-! ### Claim C1 -/

/-- C1: `validate_table_name` at its decisive inputs.  The first conjunct is
the failing input of the claim: with `table_schema = None` (the parameter's
own declared default) the function raises a `TypeError` from evaluating
`"." in None`, instead of returning the bare name as the spec states.  The
remaining conjuncts confirm the rest of the claim: names containing `.` or
`_`, and schemas containing `.`, are rejected with the `InvalidIdentifier`
(`ValueError`) domain error before any SQL is built; a non-empty schema
qualifies the name and an empty schema returns it bare. -/
theorem claim_C1_eval :
    validate_table_name "Employee" none =
      .error (.typeError "argument of type NoneType is not iterable") ∧
    validate_table_name "Employee" (some "HR") = .ok "HR.Employee" ∧
    validate_table_name "Employee" (some "") = .ok "Employee" ∧
    isValueError (validate_table_name "Export.Response" (some "HR")) = true ∧
    isValueError (validate_table_name "Export_Response" (some "HR")) = true ∧
    isValueError (validate_table_name "Employee" (some "H.R")) = true := by
  decide

/-! ### Claims C5 and C6 -/

/-- C5: a column whose name requires normalization does NOT keep its
classified type.  An integer column named `"my col"` is classified `INT`
under the normalized key `"my_col"` by the first loop, but the fallback loop
tests membership with the raw name `"my col"`, misses, and overwrites the
entry with `VARCHAR(255)`.  A column whose name needs no normalization keeps
its classified type (second conjunct). -/
theorem claim_C5_eval :
    infer_iris_types ⟨[("my col", Series.ints [1, 2, 3])]⟩ none =
      [("my_col", "VARCHAR(255)")] ∧
    infer_iris_types ⟨[("mycol", Series.ints [1, 2, 3])]⟩ none = [("mycol", "INT")] := by
  decide

/-- C6: the INT/BIGINT and VARCHAR/CLOB thresholds, and the failing input.
The first conjunct shows the claim's universal statement fails: the integer
column `[1,2,3]` named `"a b"` yields `VARCHAR(255)` (the fallback overwrite
of C5), not `INT`.  The remaining conjuncts confirm the thresholds on
normalization-invariant names: `BIGINT` exactly when a value leaves
`[-2147483648, 2147483647]`, `CLOB` exactly when the longest rendered string
exceeds 255 characters. -/
theorem claim_C6_eval :
    infer_iris_types ⟨[("a b", Series.ints [1, 2, 3])]⟩ none =
      [("a_b", "VARCHAR(255)")] ∧
    infer_iris_types ⟨[("x", Series.ints [1, 2, 2147483648])]⟩ none = [("x", "BIGINT")] ∧
    infer_iris_types ⟨[("x", Series.ints [1, 2, 3])]⟩ none = [("x", "INT")] ∧
    infer_iris_types ⟨[("x", Series.ints [-2147483649])]⟩ none = [("x", "BIGINT")] ∧
    infer_iris_types ⟨[("x", Series.ints [2147483647, -2147483648])]⟩ none =
      [("x", "INT")] ∧
    infer_iris_types ⟨[("x", Series.objs [.pystr (String.mk (List.replicate 300 'a'))])]⟩
      none = [("x", "CLOB")] ∧
    infer_iris_types ⟨[("x", Series.objs [.pystr (String.mk (List.replicate 255 'a'))])]⟩
      none = [("x", "VARCHAR(255)")] ∧
    infer_iris_types ⟨[("x", Series.objs [.pystr (String.mk (List.replicate 256 'a'))])]⟩
      none = [("x", "CLOB")] := by
  set_option maxRecDepth 4000 in decide

/-! ### Claim C10 -/

/-- C10 counterexample: the claim says every input without `.` gets the
default schema `"SQLUser"`, but an input containing `_` (and no `.`) raises
instead of returning a pair. -/
theorem claim_C10_counterexample :
    pyInChar '.' "a_b" = false ∧
    get_name_and_schema "a_b" =
      .error (.valueError
        "Invalid table_name a_b. Do not include schema or underscores in table_name.") := by
  decide

/-- C10 (amended): for a table name containing neither `.` nor `_` and a
non-empty schema containing no `.`, splitting the validated qualified name
recovers the inputs exactly; and an input containing neither `.` nor `_`
gets the default schema `"SQLUser"`. -/
theorem claim_C10 (name schema input : String)
    (h1 : pyInChar '.' name = false) (h2 : pyInChar '_' name = false)
    (h3 : schema ≠ "") (h4 : pyInChar '.' schema = false)
    (h5 : pyInChar '.' input = false) (h6 : pyInChar '_' input = false) :
    (validate_table_name name (some schema)).bind get_name_and_schema =
      .ok (name, schema) ∧
    get_name_and_schema input = .ok (input, "SQLUser") := by
  constructor
  · rw [validate_ok h1 h2 h4 h3]
    show get_name_and_schema (schema ++ "." ++ name) = .ok (name, schema)
    unfold get_name_and_schema
    rw [pySplitDot_qualified h4 h1, qualified_has_dot]
    simp [h1, h2, h4]
  · have hsplit : pySplitDot input = [input] := by
      unfold pySplitDot
      unfold pyInChar at h5
      rw [splitOnChar_of_not_mem h5]
      rfl
    unfold get_name_and_schema
    rw [hsplit, h5]
    have hq : pyInChar '.' "SQLUser" = false := by decide
    simp [h5, h6, hq]

/-- C10 witness: the amended round trip at `("Employee", "HR")` and the
default-schema case at `"abc"`. -/
theorem claim_C10_witness :
    (validate_table_name "Employee" (some "HR")).bind get_name_and_schema =
      .ok ("Employee", "HR") ∧
    get_name_and_schema "abc" = .ok ("abc", "SQLUser") :=
  claim_C10 "Employee" "HR" "abc" (by decide) (by decide) (by decide) (by decide)
    (by decide) (by decide)

/-! ### Claim C2 -/

/-- C2 counterexample: with two rows submitted and the driver reporting a
batch rowcount of 1 without raising, `insert_many` returns the short count 1
instead of raising. -/
theorem claim_C2_counterexample :
    ([[("a", Val.vint 1)], [("a", Val.vint 2)]] : List (List (String × Val))).length = 2 ∧
    (insert_many (constEngine (.ok (.count 1))) ⟨⟨["SQLUser.T"], [], []⟩, []⟩ "T"
      [[("a", Val.vint 1)], [("a", Val.vint 2)]] "SQLUser").1 = .ok 1 := by
  exact ⟨rfl, rfl⟩

/-- C2 (amended): for a non-empty batch, `insert_many` returns exactly the
rowcount the driver reports — `len(rows)` when the batch fully succeeds, and
the smaller count (without raising) when the driver reports fewer rows; it
raises only when the batch execution itself raises, in which case it rolls
back and re-raises the original error. -/
theorem claim_C2 (st : DbState) (name schema full : String)
    (rows : List (List (String × Val))) (vals : List (List Val)) (n : Nat) (e : PyErr)
    (hv : validate_table_name name (some schema) = .ok full)
    (hr : rows ≠ [])
    (hb : buildRows ((rows.headD []).map (fun p => p.1)) rows = .ok vals) :
    (insert_many (constEngine (.ok (.count n))) ⟨st, []⟩ name rows schema).1 = .ok n ∧
    (insert_many (constEngine (.error e)) ⟨st, []⟩ name rows schema).1 = .error e ∧
    (insert_many (constEngine (.error e)) ⟨st, []⟩ name rows schema).2.events.getLast? =
      some Event.rolledBack := by
  unfold insert_many
  rw [if_neg hr, hv]
  simp only [List.headD_eq_head?_getD] at hb
  simp [hb, hr, constEngine, execRowcount]

/-- C2 witness for the amended claim. -/
theorem claim_C2_witness :
    (insert_many (constEngine (.ok (.count 1))) ⟨⟨[], [], []⟩, []⟩ "T"
      [[("a", Val.vint 5)]] "SQLUser").1 = .ok 1 :=
  (claim_C2 ⟨[], [], []⟩ "T" "SQLUser" "SQLUser.T" [[("a", Val.vint 5)]]
    [[Val.vint 5]] 1 (.databaseError "x") (by decide) (by decide) (by decide)).1

/-! ### Claim C8 -/

/-- C8: `fetch` never returns a null/absent value on success; an empty result
set yields the explicitly-empty tabular value, and a non-empty result set
yields the description's column names with the fetched rows verbatim. -/
theorem claim_C8 (E : Engine) (c : Conn) (stmt : SqlStmt) :
    (fetch E c stmt).1 ≠ .ok none ∧
    (∀ desc rs st', E stmt c.st = (.ok (.rows desc rs), st') →
      ((rs = [] → (fetch E c stmt).1 = .ok (some ⟨[], []⟩)) ∧
       (rs ≠ [] → (fetch E c stmt).1 = .ok (some ⟨desc, rs⟩)))) := by
  constructor
  · unfold fetch
    cases hE : E stmt c.st with
    | mk r st' =>
      cases r with
      | error e => simp
      | ok out =>
          by_cases hrows : execRows out = [] <;> simp [hrows]
  · intro desc rs st' hE
    unfold fetch
    rw [hE]
    constructor
    · intro h
      subst h
      simp [execRows, execDescription]
    · intro h
      simp [execRows, execDescription, h]

/-- C8 witness: a concrete empty and a concrete non-empty result set. -/
theorem claim_C8_witness :
    (fetch (constEngine (.ok (.rows ["a"] [[Val.vint 7]]))) ⟨⟨[], [], []⟩, []⟩
        (SqlStmt.tableExistsQ "T" "SQLUser")).1 = .ok (some ⟨["a"], [[Val.vint 7]]⟩) ∧
    (fetch (constEngine (.ok (.rows ["a"] []))) ⟨⟨[], [], []⟩, []⟩
        (SqlStmt.tableExistsQ "T" "SQLUser")).1 = .ok (some ⟨[], []⟩) :=
  ⟨((claim_C8 (constEngine (.ok (.rows ["a"] [[Val.vint 7]]))) ⟨⟨[], [], []⟩, []⟩
      (SqlStmt.tableExistsQ "T" "SQLUser")).2 ["a"] [[Val.vint 7]] ⟨[], [], []⟩ rfl).2
      (by decide),
   ((claim_C8 (constEngine (.ok (.rows ["a"] []))) ⟨⟨[], [], []⟩, []⟩
      (SqlStmt.tableExistsQ "T" "SQLUser")).2 ["a"] [] ⟨[], [], []⟩ rfl).1 rfl⟩

/-! ### Claim C7 -/

/-- C7: `drop_table` with `if_exists=True` succeeds on every state (table
present or absent) and executes a DROP statement carrying the `IF EXISTS`
guard; with `if_exists=False` on a state without the table it raises the
engine's error.  The last conjunct shows the rendered SQL text of the guarded
statement. -/
theorem claim_C7 (st : DbState) (name schema full : String)
    (hv : validate_table_name name (some schema) = .ok full) :
    (drop_table irisEngine ⟨st, []⟩ name schema true false "table").1 = .ok () ∧
    Event.executed (SqlStmt.dropObj "table" true full) ∈
      (drop_table irisEngine ⟨st, []⟩ name schema true false "table").2.events ∧
    (full ∉ st.tables →
      (drop_table irisEngine ⟨st, []⟩ name schema false false "table").1 =
        .error (.databaseError ("Table not found: " ++ full))) ∧
    renderSql (SqlStmt.dropObj "table" true "HR.Employee") =
      "DROP table IF EXISTS HR.Employee" := by
  refine ⟨?_, ?_, ?_, by decide⟩
  · unfold drop_table
    rw [hv]
    by_cases hm : full ∈ st.tables <;> simp [execDropStmt, irisEngine, hm]
  · unfold drop_table
    rw [hv]
    by_cases hm : full ∈ st.tables <;> simp [execDropStmt, irisEngine, hm]
  · intro hm
    unfold drop_table
    rw [hv]
    simp [execDropStmt, irisEngine, hm]

/-- C7 witness: concrete drops on a state holding `SQLUser.T` and on the
empty state. -/
theorem claim_C7_witness :
    (drop_table irisEngine ⟨⟨["SQLUser.T"], [], []⟩, []⟩ "T" "SQLUser" true false
      "table").1 = .ok () ∧
    (drop_table irisEngine ⟨⟨[], [], []⟩, []⟩ "U" "SQLUser" false false "table").1 =
      .error (.databaseError "Table not found: SQLUser.U") :=
  ⟨(claim_C7 ⟨["SQLUser.T"], [], []⟩ "T" "SQLUser" "SQLUser.T" (by decide)).1,
   (claim_C7 ⟨[], [], []⟩ "U" "SQLUser" "SQLUser.U" (by decide)).2.2.1 (by decide)⟩

/-! ### Claim C3 -/

/-- C3 counterexample: with `exist_ok=False` and the target table already
present, `df_to_table` fails with the generic database error raised by
executing `CREATE TABLE` (no existence check runs and no domain
`ValueError` is produced), though it does create nothing. -/
theorem claim_C3_counterexample :
    (df_to_table irisEngine ⟨⟨["SQLUser.T"], [], []⟩, []⟩ ⟨[("a", Series.ints [1])]⟩
        "T" "SQLUser" none none [] false false false none).1 =
      .error (.databaseError "Table or view name not unique: SQLUser.T") ∧
    isValueError (df_to_table irisEngine ⟨⟨["SQLUser.T"], [], []⟩, []⟩
        ⟨[("a", Series.ints [1])]⟩ "T" "SQLUser" none none [] false false false none).1 =
      false ∧
    (df_to_table irisEngine ⟨⟨["SQLUser.T"], [], []⟩, []⟩ ⟨[("a", Series.ints [1])]⟩
        "T" "SQLUser" none none [] false false false none).2.st =
      ⟨["SQLUser.T"], [], []⟩ := by
  exact ⟨rfl, rfl, rfl⟩

/-- C3 (amended): when `exist_ok` is false and the table exists,
`df_to_table` performs no existence check; the `CREATE TABLE` it issues fails
at the engine with a generic database error, which is rolled back and
re-raised unchanged (not converted to the `TableAlreadyExists` domain error),
and the database state is left unchanged. -/
theorem claim_C3 (st : DbState) (name schema full : String) (df : DataFrame)
    (cts : Option (List (String × String))) (pk : Option String) (cons : List String)
    (inds : Option (List IdxSpec))
    (hv : validate_table_name name (some schema) = .ok full)
    (hex : full ∈ st.tables) :
    (df_to_table irisEngine ⟨st, []⟩ df name schema cts pk cons false false false inds).1 =
      .error (.databaseError ("Table or view name not unique: " ++ full)) ∧
    (df_to_table irisEngine ⟨st, []⟩ df name schema cts pk cons false false false
      inds).2.st = st := by
  unfold df_to_table
  rw [hv]
  unfold dfToTableBody create_table
  rw [hv]
  simp [irisEngine, hex]

/-- C3 witness for the amended claim. -/
theorem claim_C3_witness :
    (df_to_table irisEngine ⟨⟨["SQLUser.U"], [], []⟩, []⟩ ⟨[("a", Series.ints [1])]⟩
        "U" "SQLUser" none none [] false false false none).1 =
      .error (.databaseError "Table or view name not unique: SQLUser.U") :=
  (claim_C3 ⟨["SQLUser.U"], [], []⟩ "U" "SQLUser" "SQLUser.U" ⟨[("a", Series.ints [1])]⟩
    none none [] none (by decide) (by decide)).1

/-! ### Claim C4 -/

/-- C4 counterexample: a failing HNSW index creation is swallowed — the call
returns success and performs no rollback, contradicting the claim that every
mutating operation (vector index creation included) rolls back and re-raises. -/
theorem claim_C4_counterexample :
    (create_hnsw_index (failWriteEngine (.databaseError "disk full"))
        ⟨⟨["SQLUser.T"], [], []⟩, []⟩ "T" "Emb" "idx1" "Cosine" none none "SQLUser").1 =
      .ok () ∧
    Event.rolledBack ∉
      (create_hnsw_index (failWriteEngine (.databaseError "disk full"))
        ⟨⟨["SQLUser.T"], [], []⟩, []⟩ "T" "Emb" "idx1" "Cosine" none none
        "SQLUser").2.events := by
  exact ⟨rfl, by decide⟩

/-- C4 (amended): on an engine whose mutating statements all fail with `e`,
each of `insert_row`, `create_table`, `drop_table`, `update` and
`create_index` re-raises `e` after a rollback; `create_hnsw_index` alone
swallows the failure, returning success without rolling back. -/
theorem claim_C4 (e : PyErr) (st : DbState) (name schema full : String)
    (values filters : List (String × Val)) (cols : List (String × String))
    (cons : List String) (idxn coln ity dist : String) (M ef : Option Int)
    (hv : validate_table_name name (some schema) = .ok full)
    (hidx : idxn ∉ st.indexes) :
    (insert_row (failWriteEngine e) ⟨st, []⟩ name values schema).1 = .error e ∧
    (insert_row (failWriteEngine e) ⟨st, []⟩ name values schema).2.events.getLast? =
      some Event.rolledBack ∧
    (create_table (failWriteEngine e) ⟨st, []⟩ name cols cons schema false).1 =
      .error e ∧
    (create_table (failWriteEngine e) ⟨st, []⟩ name cols cons schema
      false).2.events.getLast? = some Event.rolledBack ∧
    (drop_table (failWriteEngine e) ⟨st, []⟩ name schema true false "table").1 =
      .error e ∧
    (drop_table (failWriteEngine e) ⟨st, []⟩ name schema true false
      "table").2.events.getLast? = some Event.rolledBack ∧
    (update (failWriteEngine e) ⟨st, []⟩ name values filters schema).1 = .error e ∧
    (update (failWriteEngine e) ⟨st, []⟩ name values filters schema).2.events.getLast? =
      some Event.rolledBack ∧
    (create_index (failWriteEngine e) ⟨st, []⟩ idxn name coln ity schema).1 =
      .error e ∧
    (create_index (failWriteEngine e) ⟨st, []⟩ idxn name coln ity
      schema).2.events.getLast? = some Event.rolledBack ∧
    (create_hnsw_index (failWriteEngine e) ⟨st, []⟩ name coln idxn dist M ef
      schema).1 = .ok () ∧
    Event.rolledBack ∉
      (create_hnsw_index (failWriteEngine e) ⟨st, []⟩ name coln idxn dist M ef
        schema).2.events := by
  refine ⟨?_, ?_, ?_, ?_, ?_, ?_, ?_, ?_, ?_, ?_, ?_, ?_⟩
  · unfold insert_row
    rw [hv]
    simp [failWriteEngine]
  · unfold insert_row
    rw [hv]
    simp [failWriteEngine]
  · unfold create_table
    rw [hv]
    simp [failWriteEngine]
  · unfold create_table
    rw [hv]
    simp [failWriteEngine]
  · unfold drop_table
    rw [hv]
    simp [execDropStmt, failWriteEngine]
  · unfold drop_table
    rw [hv]
    simp [execDropStmt, failWriteEngine]
  · unfold update
    rw [hv]
    simp [failWriteEngine]
  · unfold update
    rw [hv]
    simp [failWriteEngine]
  · unfold create_index index_exists
    rw [hv]
    simp [failWriteEngine, irisEngine, hidx, execRows, pyInt]
  · unfold create_index index_exists
    rw [hv]
    simp [failWriteEngine, irisEngine, hidx, execRows, pyInt]
  · unfold create_hnsw_index
    rw [hv]
    simp [failWriteEngine]
  · unfold create_hnsw_index
    rw [hv]
    simp [failWriteEngine]

/-- C4 witness for the amended claim. -/
theorem claim_C4_witness :
    (insert_row (failWriteEngine (.databaseError "boom")) ⟨⟨[], [], []⟩, []⟩ "T"
      [("a", Val.vint 1)] "SQLUser").1 = .error (.databaseError "boom") ∧
    (create_hnsw_index (failWriteEngine (.databaseError "boom")) ⟨⟨[], [], []⟩, []⟩
      "T" "Emb" "idx9" "Cosine" none none "SQLUser").1 = .ok () :=
  ⟨(claim_C4 (.databaseError "boom") ⟨[], [], []⟩ "T" "SQLUser" "SQLUser.T"
      [("a", Val.vint 1)] [] [] [] "idx9" "Emb" "index" "Cosine" none none
      (by decide) (by decide)).1,
   (claim_C4 (.databaseError "boom") ⟨[], [], []⟩ "T" "SQLUser" "SQLUser.T"
      [("a", Val.vint 1)] [] [] [] "idx9" "Emb" "index" "Cosine" none none
      (by decide) (by decide)).2.2.2.2.2.2.2.2.2.2.1⟩

/-! ### Event-trace frame lemmas for C9 -/

theorem fetch_events (E : Engine) (c : Conn) (stmt : SqlStmt) :
    (fetch E c stmt).2.events = c.events ++ [.executed stmt] := by
  unfold fetch
  cases hE : E stmt c.st with
  | mk r st' =>
      cases r with
      | error e => simp
      | ok out => by_cases h : execRows out = [] <;> simp [h]

theorem table_exists_pre (E : Engine) (c : Conn) (n s : String) :
    ∃ Δ, (table_exists E c n s).2.events = c.events ++ Δ ∧ Δ.all preEvent = true := by
  unfold table_exists
  cases hval : validate_table_name n (some s) with
  | error e => exact ⟨[], by simp, rfl⟩
  | ok full =>
      cases hf : fetch E c (SqlStmt.tableExistsQ n s) with
      | mk r c' =>
          have hev : c'.events = c.events ++ [.executed (SqlStmt.tableExistsQ n s)] := by
            have h2 := fetch_events E c (SqlStmt.tableExistsQ n s)
            rw [hf] at h2
            exact h2
          refine ⟨[.executed (SqlStmt.tableExistsQ n s)], ?_, rfl⟩
          cases r with
          | error e => simpa using hev
          | ok odf =>
              cases hdc : dfCell odf "num_rows" with
              | error e => simp [hdc, hev]
              | ok v =>
                  cases hpi : pyInt v with
                  | error e => simp [hdc, hpi, hev]
                  | ok m => simp [hdc, hpi, hev]

theorem execDropStmt_pre (E : Engine) (c : Conn) (k : String) (ie : Bool) (fn : String) :
    ∃ Δ, (execDropStmt E c k ie fn).2.events = c.events ++ Δ ∧ Δ.all preEvent = true := by
  unfold execDropStmt
  cases hE : E (SqlStmt.dropObj k ie fn) c.st with
  | mk r st' =>
      cases r with
      | error e =>
          exact ⟨[.executed (SqlStmt.dropObj k ie fn), .rolledBack], by simp [hE], rfl⟩
      | ok out =>
          exact ⟨[.executed (SqlStmt.dropObj k ie fn), .committed], by simp [hE], rfl⟩

theorem dropSingle_pre (E : Engine) (c : Conn) (n s : String) (ie : Bool) (k : String) :
    ∃ Δ, (dropSingle E c n s ie k).2.events = c.events ++ Δ ∧ Δ.all preEvent = true := by
  unfold dropSingle
  cases hval : validate_table_name n (some s) with
  | error e => exact ⟨[], by simp, rfl⟩
  | ok full => exact execDropStmt_pre E c k ie full

theorem dropRelatedLoop_pre (E : Engine) (recs : List (List (String × Val))) :
    ∀ c : Conn, ∃ Δ, (dropRelatedLoop E c recs).2.events = c.events ++ Δ ∧
      Δ.all preEvent = true := by
  induction recs with
  | nil => intro c; exact ⟨[], by simp [dropRelatedLoop], rfl⟩
  | cons rv rest ih =>
      intro c
      unfold dropRelatedLoop
      cases h1 : recField rv "VIEW_NAME" with
      | error e => exact ⟨[], by simp, rfl⟩
      | ok vname =>
          cases h2 : recField rv "VIEW_SCHEMA" with
          | error e => exact ⟨[], by simp, rfl⟩
          | ok vschema =>
              cases hd : dropSingle E c vname vschema false "view" with
              | mk r c' =>
                  obtain ⟨Δ₁, hΔ₁, hp₁⟩ := dropSingle_pre E c vname vschema false "view"
                  simp only [hd] at hΔ₁
                  cases r with
                  | error e =>
                      refine ⟨Δ₁, ?_, hp₁⟩
                      simp only [hd]
                      exact hΔ₁
                  | ok u =>
                      obtain ⟨Δ₂, hΔ₂, hp₂⟩ := ih c'
                      refine ⟨Δ₁ ++ Δ₂, ?_, ?_⟩
                      · simp only [hd]
                        rw [hΔ₂, hΔ₁, List.append_assoc]
                      · simp only [List.all_append, hp₁, hp₂, Bool.and_self]

theorem views_using_table_pre (E : Engine) (c : Conn) (n s : String) :
    ∃ Δ, (views_using_table E c n s).2.events = c.events ++ Δ ∧ Δ.all preEvent = true := by
  unfold views_using_table
  cases hf : fetch E c (SqlStmt.viewsUsingQ n s) with
  | mk r c' =>
      have hev : c'.events = c.events ++ [.executed (SqlStmt.viewsUsingQ n s)] := by
        have h2 := fetch_events E c (SqlStmt.viewsUsingQ n s)
        rw [hf] at h2
        exact h2
      refine ⟨[.executed (SqlStmt.viewsUsingQ n s)], ?_, rfl⟩
      cases r with
      | error e => simpa using hev
      | ok odf => simpa using hev

theorem drop_table_pre (E : Engine) (c : Conn) (n s : String) (ie drv : Bool)
    (k : String) :
    ∃ Δ, (drop_table E c n s ie drv k).2.events = c.events ++ Δ ∧
      Δ.all preEvent = true := by
  unfold drop_table
  cases hval : validate_table_name n (some s) with
  | error e => exact ⟨[], by simp, rfl⟩
  | ok full =>
      cases hdrv : drv with
      | false => exact execDropStmt_pre E c k ie full
      | true =>
          cases hvu : views_using_table E c n s with
          | mk r c' =>
              obtain ⟨Δ₁, hΔ₁, hp₁⟩ := views_using_table_pre E c n s
              simp only [hvu] at hΔ₁
              cases r with
              | error e =>
                  refine ⟨Δ₁, ?_, hp₁⟩
                  simp only [hvu]
                  exact hΔ₁
              | ok recs =>
                  cases hl : dropRelatedLoop E c' recs with
                  | mk r₂ c₂ =>
                      obtain ⟨Δ₂, hΔ₂, hp₂⟩ := dropRelatedLoop_pre E recs c'
                      simp only [hl] at hΔ₂
                      cases r₂ with
                      | error e =>
                          refine ⟨Δ₁ ++ Δ₂, ?_, ?_⟩
                          · simp only [hvu, hl, if_true]
                            rw [hΔ₂, hΔ₁, List.append_assoc]
                          · simp only [List.all_append, hp₁, hp₂, Bool.and_self]
                      | ok u =>
                          obtain ⟨Δ₃, hΔ₃, hp₃⟩ := execDropStmt_pre E c₂ k ie full
                          refine ⟨Δ₁ ++ Δ₂ ++ Δ₃, ?_, ?_⟩
                          · simp only [hvu, hl, if_true]
                            rw [hΔ₃, hΔ₂, hΔ₁]
                            simp [List.append_assoc]
                          · simp [List.all_append, hp₁, hp₂, hp₃]

theorem create_table_ok (E : Engine) (c : Conn) (n : String)
    (cols : List (String × String)) (cons : List String) (s : String) (c' : Conn)
    (h : create_table E c n cols cons s false = (.ok (), c')) :
    ∃ fn cds st2,
      c' = ⟨st2, c.events ++ [.executed (SqlStmt.createTable fn cds), .committed]⟩ := by
  unfold create_table at h
  cases hval : validate_table_name n (some s) with
  | error e =>
      rw [hval] at h
      simp at h
  | ok full =>
      rw [hval] at h
      simp only [Bool.false_eq_true, if_false] at h
      split at h
      next out st' hE =>
        simp only [Prod.mk.injEq] at h
        exact ⟨full, cols.map (fun p => p.1 ++ " " ++ p.2) ++ cons, st', h.2.symm⟩
      next e st' hE => simp at h

theorem index_exists_mid (E : Engine) (c : Conn) (n i s : String) :
    ∃ Δ, (index_exists E c n i s).2.events = c.events ++ Δ ∧ Δ.all midEvent = true ∧
      Δ.countP isIndexExec = 0 := by
  unfold index_exists
  cases hval : validate_table_name n (some s) with
  | error e => exact ⟨[], by simp, rfl, rfl⟩
  | ok full =>
      cases hE : E (SqlStmt.indexExistsQ n s i) c.st with
      | mk r st' =>
          refine ⟨[.executed (SqlStmt.indexExistsQ n s i)], ?_, rfl, rfl⟩
          cases r with
          | error e => simp [hE]
          | ok out =>
              cases hh : (execRows out).head? with
              | none => simp [hE, hh]
              | some rrow =>
                  cases hh2 : rrow.head? with
                  | none => simp [hE, hh, hh2]
                  | some v =>
                      cases hpi : pyInt v with
                      | error e => simp [hE, hh, hh2, hpi]
                      | ok m => simp [hE, hh, hh2, hpi]

theorem create_index_frame (E : Engine) (c : Conn) (i n col ty s : String)
    (r : Except PyErr Unit) (c' : Conn)
    (h : create_index E c i n col ty s = (r, c')) :
    ∃ Δ, c'.events = c.events ++ Δ ∧ Δ.all midEvent = true ∧
      (r = .ok () → Δ.countP isIndexExec = 1) := by
  unfold create_index at h
  cases hval : validate_table_name n (some s) with
  | error e =>
      rw [hval] at h
      simp only [Prod.mk.injEq] at h
      refine ⟨[], by rw [← h.2]; simp, rfl, ?_⟩
      intro hro
      rw [← h.1] at hro
      cases hro
  | ok full =>
      rw [hval] at h
      cases hie : index_exists E c n i s with
      | mk rb cb =>
          obtain ⟨Δq, hΔq, hmq, hcq⟩ := index_exists_mid E c n i s
          simp only [hie] at h hΔq
          cases rb with
          | error e =>
              simp only [Prod.mk.injEq] at h
              refine ⟨Δq, by rw [← h.2]; exact hΔq, hmq, ?_⟩
              intro hro
              rw [← h.1] at hro
              cases hro
          | ok bexists =>
              cases bexists with
              | true =>
                  simp only [if_true] at h
                  simp only [Prod.mk.injEq] at h
                  refine ⟨Δq, by rw [← h.2]; exact hΔq, hmq, ?_⟩
                  intro hro
                  rw [← h.1] at hro
                  cases hro
              | false =>
                  simp only [Bool.false_eq_true, if_false] at h
                  split at h
                  next out st' hE =>
                    simp only [Prod.mk.injEq] at h
                    refine ⟨Δq ++ [.executed (SqlStmt.createIdx i full col ty), .committed],
                      ?_, ?_, ?_⟩
                    · rw [← h.2]
                      simp only []
                      rw [hΔq, List.append_assoc]
                    · simp [List.all_append, hmq, midEvent, isCreateTableExec,
                        isIndexExec, isBulkInsertExec]
                    · intro hro
                      rw [List.countP_append, hcq]
                      simp [List.countP_cons, isIndexExec]
                  next e st' hE =>
                    simp only [Prod.mk.injEq] at h
                    refine ⟨Δq ++ [.executed (SqlStmt.createIdx i full col ty), .rolledBack],
                      ?_, ?_, ?_⟩
                    · rw [← h.2]
                      simp only []
                      rw [hΔq, List.append_assoc]
                    · simp [List.all_append, hmq, midEvent, isCreateTableExec,
                        isIndexExec, isBulkInsertExec]
                    · intro hro
                      rw [← h.1] at hro
                      cases hro

theorem create_hnsw_frame (E : Engine) (c : Conn) (n col i dist : String)
    (M ef : Option Int) (s : String) (r : Except PyErr Unit) (c' : Conn)
    (h : create_hnsw_index E c n col i dist M ef s = (r, c')) :
    ∃ Δ, c'.events = c.events ++ Δ ∧ Δ.all midEvent = true ∧
      (r = .ok () → Δ.countP isIndexExec = 1) := by
  unfold create_hnsw_index at h
  cases hval : validate_table_name n (some s) with
  | error e =>
      rw [hval] at h
      simp only [Prod.mk.injEq] at h
      refine ⟨[], by rw [← h.2]; simp, rfl, ?_⟩
      intro hro
      rw [← h.1] at hro
      cases hro
  | ok full =>
      rw [hval] at h
      dsimp only at h
      split at h
      next out st' hE =>
        simp only [Prod.mk.injEq] at h
        obtain ⟨hr, hc⟩ := h
        subst hc
        exact ⟨_, rfl, rfl, fun _ => rfl⟩
      next e st' hE =>
        simp only [Prod.mk.injEq] at h
        obtain ⟨hr, hc⟩ := h
        subst hc
        exact ⟨_, rfl, rfl, fun _ => rfl⟩

theorem dfIndexLoop_frame (E : Engine) (tn ts : String) (l : List IdxSpec) :
    ∀ (c : Conn) (r : Except PyErr Unit) (c' : Conn),
      dfIndexLoop E c tn ts l = (r, c') →
      ∃ Δ, c'.events = c.events ++ Δ ∧ Δ.all midEvent = true ∧
        (r = .ok () → Δ.countP isIndexExec = l.length) := by
  induction l with
  | nil =>
      intro c r c' h
      unfold dfIndexLoop at h
      simp only [Prod.mk.injEq] at h
      obtain ⟨hr, hc⟩ := h
      subst hc
      exact ⟨[], by simp, rfl, fun _ => rfl⟩
  | cons idx rest ih =>
      intro c r c' h
      unfold dfIndexLoop at h
      dsimp only at h
      by_cases hty : (idx.idxType.getD "index") = "hnsw"
      · rw [if_pos hty] at h
        split at h
        next u c₂ heq =>
          obtain ⟨Δ₁, hΔ₁, hm₁, hc₁⟩ :=
            create_hnsw_frame _ _ _ _ _ _ _ _ _ _ _ heq
          obtain ⟨Δ₂, hΔ₂, hm₂, hc₂⟩ := ih c₂ r c' h
          refine ⟨Δ₁ ++ Δ₂, ?_, ?_, ?_⟩
          · rw [hΔ₂, hΔ₁, List.append_assoc]
          · simp [List.all_append, hm₁, hm₂]
          · intro hro
            rw [List.countP_append, hc₁ rfl, hc₂ hro, List.length_cons]
            omega
        next e c₂ heq =>
          simp only [Prod.mk.injEq] at h
          obtain ⟨hr, hc⟩ := h
          subst hc
          obtain ⟨Δ₁, hΔ₁, hm₁, _⟩ :=
            create_hnsw_frame _ _ _ _ _ _ _ _ _ _ _ heq
          refine ⟨Δ₁, hΔ₁, hm₁, ?_⟩
          intro hro
          rw [← hr] at hro
          cases hro
      · rw [if_neg hty] at h
        split at h
        next u c₂ heq =>
          obtain ⟨Δ₁, hΔ₁, hm₁, hc₁⟩ := create_index_frame _ _ _ _ _ _ _ _ _ heq
          obtain ⟨Δ₂, hΔ₂, hm₂, hc₂⟩ := ih c₂ r c' h
          refine ⟨Δ₁ ++ Δ₂, ?_, ?_, ?_⟩
          · rw [hΔ₂, hΔ₁, List.append_assoc]
          · simp [List.all_append, hm₁, hm₂]
          · intro hro
            rw [List.countP_append, hc₁ rfl, hc₂ hro, List.length_cons]
            omega
        next e c₂ heq =>
          simp only [Prod.mk.injEq] at h
          obtain ⟨hr, hc⟩ := h
          subst hc
          obtain ⟨Δ₁, hΔ₁, hm₁, _⟩ := create_index_frame _ _ _ _ _ _ _ _ _ heq
          refine ⟨Δ₁, hΔ₁, hm₁, ?_⟩
          intro hro
          rw [← hr] at hro
          cases hro

theorem dfToTableBody_ok (E : Engine) (c : Conn) (df : DataFrame)
    (tn ts fn : String) (cts : Option (List (String × String))) (pk : Option String)
    (cons : List String) (inds : Option (List IdxSpec)) (c' : Conn)
    (h : dfToTableBody E c df tn ts fn cts pk cons inds = (.ok (), c')) :
    ∃ ctf cds mid cs2 rows2,
      c'.events = c.events ++ [.executed (SqlStmt.createTable ctf cds), .committed] ++
        mid ++ [.executed (SqlStmt.insertManyS fn cs2 rows2), .committed] ∧
      mid.all midEvent = true ∧ mid.countP isIndexExec = (inds.getD []).length := by
  cases inds with
  | none =>
      unfold dfToTableBody at h
      dsimp only at h
      split at h
      next e c₁ heqct => simp at h
      next u c₁ heqct =>
        obtain ⟨ctf, cds, st₁, hc₁⟩ := create_table_ok _ _ _ _ _ _ _ heqct
        subst hc₁
        split at h
        next e snd heqE => simp at h
        next out st' heqE =>
          split at h
          next hne => simp at h
          next hnn =>
            simp only [Prod.mk.injEq] at h
            obtain ⟨-, hc⟩ := h
            subst hc
            refine ⟨ctf, cds, [],
              String.intercalate ", " (df.cols.map (fun p =>
                pyReplace '.' '_' (pyReplace ' ' '_' (pyStrip p.1)))),
              dfValues df, ?_, rfl, rfl⟩
            simp
  | some l =>
      unfold dfToTableBody at h
      dsimp only at h
      split at h
      next e c₁ heqct => simp at h
      next u c₁ heqct =>
        obtain ⟨ctf, cds, st₁, hc₁⟩ := create_table_ok _ _ _ _ _ _ _ heqct
        subst hc₁
        split at h
        next e c₂ heqloop => simp at h
        next u₂ c₂ heqloop =>
          obtain ⟨mid, hΔ₂, hm, hcnt⟩ := dfIndexLoop_frame E tn ts l _ _ _ heqloop
          split at h
          next e snd heqE => simp at h
          next out st' heqE =>
            split at h
            next hne => simp at h
            next hnn =>
              simp only [Prod.mk.injEq] at h
              obtain ⟨-, hc⟩ := h
              subst hc
              refine ⟨ctf, cds, mid,
                String.intercalate ", " (df.cols.map (fun p =>
                  pyReplace '.' '_' (pyReplace ' ' '_' (pyStrip p.1)))),
                dfValues df, ?_, hm, hcnt rfl⟩
              show c₂.events ++ _ = _
              rw [hΔ₂]

/-- C9: in every successful `df_to_table` run, either the trace decomposes as
(existence/drop prelude) · CREATE TABLE+commit · (index activity only, with
exactly one index-creation execution per requested index) · bulk INSERT+commit
— so every index creation executes strictly after the CREATE TABLE and
strictly before the bulk INSERT, and the INSERT is issued only after all
requested index creations were attempted — or the run returned early at the
exist-ok skip and executed no table creation, no index creation and no bulk
insert at all. -/
theorem claim_C9 (E : Engine) (st : DbState) (df : DataFrame) (name schema : String)
    (cts : Option (List (String × String))) (pk : Option String) (cons : List String)
    (exist_ok dif drv : Bool) (inds : Option (List IdxSpec))
    (h : (df_to_table E ⟨st, []⟩ df name schema cts pk cons exist_ok dif drv inds).1 =
      .ok ()) :
    (∃ pre mid ctf cds cs2 rows2 fn,
       (df_to_table E ⟨st, []⟩ df name schema cts pk cons exist_ok dif drv inds).2.events =
         pre ++ [Event.executed (SqlStmt.createTable ctf cds), Event.committed] ++ mid ++
           [Event.executed (SqlStmt.insertManyS fn cs2 rows2), Event.committed] ∧
       pre.all preEvent = true ∧ mid.all midEvent = true ∧
       mid.countP isIndexExec = (inds.getD []).length) ∨
    ((df_to_table E ⟨st, []⟩ df name schema cts pk cons exist_ok dif drv
      inds).2.events).all preEvent = true := by
  cases hrun : df_to_table E ⟨st, []⟩ df name schema cts pk cons exist_ok dif drv inds with
  | mk r c' =>
      simp only [hrun] at h ⊢
      subst h
      unfold df_to_table at hrun
      cases hval : validate_table_name name (some schema) with
      | error e =>
          rw [hval] at hrun
          simp at hrun
      | ok full =>
          rw [hval] at hrun
          cases exist_ok with
          | false =>
              simp only [Bool.false_eq_true, if_false] at hrun
              obtain ⟨ctf, cds, mid, cs2, rows2, hev, hm, hcnt⟩ :=
                dfToTableBody_ok _ _ _ _ _ _ _ _ _ _ _ hrun
              left
              exact ⟨[], mid, ctf, cds, cs2, rows2, full, by simpa using hev, rfl, hm, hcnt⟩
          | true =>
              simp only [if_true] at hrun
              split at hrun
              next e c₁ heqte => simp at hrun
              next c₁ heqte =>
                obtain ⟨Δ₁, hΔ₁, hp₁⟩ := table_exists_pre E ⟨st, []⟩ name schema
                simp only [heqte] at hΔ₁
                cases dif with
                | false =>
                    simp only [Bool.false_eq_true, if_false, Prod.mk.injEq] at hrun
                    obtain ⟨-, hc⟩ := hrun
                    subst hc
                    right
                    rw [hΔ₁]
                    simpa using hp₁
                | true =>
                    simp only [if_true] at hrun
                    split at hrun
                    next e c₂ heqdrop => simp at hrun
                    next u c₂ heqdrop =>
                      obtain ⟨Δ₂, hΔ₂, hp₂⟩ := drop_table_pre E c₁ name schema true drv "table"
                      simp only [heqdrop] at hΔ₂
                      obtain ⟨ctf, cds, mid, cs2, rows2, hev, hm, hcnt⟩ :=
                        dfToTableBody_ok _ _ _ _ _ _ _ _ _ _ _ hrun
                      left
                      refine ⟨Δ₁ ++ Δ₂, mid, ctf, cds, cs2, rows2, full, ?_, ?_, hm, hcnt⟩
                      · rw [hev, hΔ₂, hΔ₁]
                        simp [List.append_assoc]
                      · simp only [List.all_append, hp₁, hp₂, Bool.and_self]
              next c₁ heqte =>
                obtain ⟨Δ₁, hΔ₁, hp₁⟩ := table_exists_pre E ⟨st, []⟩ name schema
                simp only [heqte] at hΔ₁
                obtain ⟨ctf, cds, mid, cs2, rows2, hev, hm, hcnt⟩ :=
                  dfToTableBody_ok _ _ _ _ _ _ _ _ _ _ _ hrun
                left
                refine ⟨Δ₁, mid, ctf, cds, cs2, rows2, full, ?_, hp₁, hm, hcnt⟩
                rw [hev, hΔ₁]
                simp [List.append_assoc]

/-- C9 witness: a concrete successful load of two rows into `SQLUser.T` with
one requested ordinary index, on the modelled engine over the empty state. -/
theorem claim_C9_witness :
    (∃ pre mid ctf cds cs2 rows2 fn,
       (df_to_table irisEngine ⟨⟨[], [], []⟩, []⟩ ⟨[("Age", Series.ints [30, 40])]⟩ "T"
         "SQLUser" (some [("Age", "INT")]) none [] false false false
         (some [⟨"Age", none, none, none⟩])).2.events =
         pre ++ [Event.executed (SqlStmt.createTable ctf cds), Event.committed] ++ mid ++
           [Event.executed (SqlStmt.insertManyS fn cs2 rows2), Event.committed] ∧
       pre.all preEvent = true ∧ mid.all midEvent = true ∧
       mid.countP isIndexExec = 1) ∨
    ((df_to_table irisEngine ⟨⟨[], [], []⟩, []⟩ ⟨[("Age", Series.ints [30, 40])]⟩ "T"
      "SQLUser" (some [("Age", "INT")]) none [] false false false
      (some [⟨"Age", none, none, none⟩])).2.events).all preEvent = true :=
  claim_C9 irisEngine ⟨[], [], []⟩ ⟨[("Age", Series.ints [30, 40])]⟩ "T" "SQLUser"
    (some [("Age", "INT")]) none [] false false false (some [⟨"Age", none, none, none⟩])
    (by decide)

end IRIStool
